import Mathlib

/-!
Verification development for the Cyberdtse vault application.

The repository's presentation layer is `src/App.tsx`; its state handlers
(`handleLock`, `handleVisibilityChange`, `checkState`, `handleSetup`,
`handleUnlock`, `handleRecover`, `handlePasswordReset`, `handleAdd`,
`handleDelete`) are embedded below as pure transition functions over an
explicit application-state record.  Each React `useState` setter becomes a
field update; each `await VaultService.*` call becomes an explicit
`Except`-valued parameter carrying the outcome of the asynchronous call.

The vault engine itself (`./services/VaultService`) is not part of the
repository's sources, so the engine-level definitions further below are
modelled from the specification's component contracts (KDF, AEAD,
key escrow, vault record, password generator) and are marked as such in
their doc comments.
-/

namespace Cyberdtse

/-- A vault item as in `src/App.tsx`: `{ id, title, username, password }`. -/
structure VaultItem where
  id : String
  title : String
  username : String
  password : String
deriving DecidableEq

/-- The `AppState` enum of `src/App.tsx`.  `RECOVERY_SUCCESS` is the
application's rendering of the specification's `RECOVERED` state. -/
inductive AppState where
  | LOADING
  | SETUP
  | LOCKED
  | RECOVERY_SUCCESS
  | UNLOCKED
deriving DecidableEq

/-- The mutable React state of the `App` component: `appState`, `items`,
`recoveryKey` and `error` (the `showPassword` map is pure presentation and
is not modelled). -/
structure AppModel where
  appState : AppState
  items : List VaultItem
  recoveryKey : Option String
  error : Option String
deriving DecidableEq

/-- The initial component state: `useState(AppState.LOADING)`,
`useState<VaultItem[]>([])`, `useState<string|null>(null)` twice. -/
def appInit : AppModel :=
  { appState := AppState.LOADING, items := [], recoveryKey := none, error := none }

/-- The distinct causes an unlock/recover attempt can fail for; the
specification's error taxonomy collapses all of them to `AuthFailure`. -/
inductive AuthCause where
  | wrongPassword
  | corruptedWrappedKey
  | tamperedCiphertext
  | badSalt
deriving DecidableEq

/-- `handleLock` of `src/App.tsx`: `setItems([]); setAppState(LOCKED);
setError(null)`. -/
def handleLock (s : AppModel) : AppModel :=
  { s with items := [], appState := AppState.LOCKED, error := none }

/-- `handleVisibilityChange` of `src/App.tsx`: on a visibility event, if the
document became hidden and the state is `UNLOCKED`, call `handleLock`. -/
def handleVisibilityChange (hidden : Bool) (s : AppModel) : AppModel :=
  if hidden = true ∧ s.appState = AppState.UNLOCKED then handleLock s else s

/-- `checkState` of `src/App.tsx`: `setAppState(hasVault ? LOCKED : SETUP)`,
where `hasVault` is the awaited result of `VaultService.hasExistingVault()`. -/
def checkState (hasVault : Bool) (s : AppModel) : AppModel :=
  { s with appState := if hasVault then AppState.LOCKED else AppState.SETUP }

/-- The startup effect of `src/App.tsx` (the `useEffect` with empty
dependency list): it performs exactly one `hasExistingVault` query against
the oracle stream `oracle` at position `cursor` and then runs `checkState`
on the answer; the returned cursor counts consultations consumed. -/
def runStartup (oracle : Nat → Bool) (cursor : Nat) (s : AppModel) : AppModel × Nat :=
  (checkState (oracle cursor) s, cursor + 1)

/-- `handleSetup` of `src/App.tsx`: clear the error, await
`VaultService.initializeVault(pwd)`; on success store the recovery key,
set items to `[]` and enter `UNLOCKED`; on any thrown error set the fixed
message. -/
def handleSetup (result : Except AuthCause String) (s : AppModel) : AppModel :=
  let s0 := { s with error := none }
  match result with
  | Except.ok rKey =>
      { s0 with recoveryKey := some rKey, items := [], appState := AppState.UNLOCKED }
  | Except.error _ => { s0 with error := some "Failed to initialize vault." }

/-- `handleUnlock` of `src/App.tsx`: clear the error, await
`VaultService.unlockVault(pwd)`; on success set the decrypted items and
enter `UNLOCKED`; on any thrown error (whatever its cause) set the one
fixed message and change nothing else. -/
def handleUnlock (result : Except AuthCause (List VaultItem)) (s : AppModel) : AppModel :=
  let s0 := { s with error := none }
  match result with
  | Except.ok decryptedItems =>
      { s0 with items := decryptedItems, appState := AppState.UNLOCKED }
  | Except.error _ => { s0 with error := some "Invalid master password." }

/-- `handleRecover` of `src/App.tsx`: like `handleUnlock` but via
`VaultService.recoverVault(rKey)`, entering `RECOVERY_SUCCESS` on success. -/
def handleRecover (result : Except AuthCause (List VaultItem)) (s : AppModel) : AppModel :=
  let s0 := { s with error := none }
  match result with
  | Except.ok decryptedItems =>
      { s0 with items := decryptedItems, appState := AppState.RECOVERY_SUCCESS }
  | Except.error _ => { s0 with error := some "Invalid recovery key." }

/-- `handlePasswordReset` of `src/App.tsx`: clear the error, await
`VaultService.resetMasterPassword(newPwd)`; on success enter `UNLOCKED`;
on error set the fixed message and re-throw — the state is not changed. -/
def handlePasswordReset (result : Except AuthCause Unit) (s : AppModel) : AppModel :=
  let s0 := { s with error := none }
  match result with
  | Except.ok _ => { s0 with appState := AppState.UNLOCKED }
  | Except.error _ =>
      { s0 with error := some "Failed to update master password. Hardware key error." }

/-- `handleAdd` of `src/App.tsx`, in-memory part: build the new item with a
generated id and append it; `freshId` stands for `crypto.randomUUID()`. -/
def handleAddApp (freshId title user pass : String) (s : AppModel) : AppModel :=
  { s with items := s.items ++ [{ id := freshId, title := title, username := user, password := pass }] }

/-- `handleDelete` of `src/App.tsx`, in-memory part:
`items.filter(i => i.id !== id)`. -/
def handleDeleteApp (i : String) (s : AppModel) : AppModel :=
  { s with items := s.items.filter (fun x => x.id ≠ i) }

/-- The application state together with the item collection the persisted
vault record currently decrypts to.  `VaultService.saveVault` is modelled
from the spec as an atomic write: it either replaces the persisted
collection or fails leaving it untouched. -/
structure SysState where
  app : AppModel
  persisted : List VaultItem
deriving DecidableEq

/-- `handleAdd` of `src/App.tsx` with its `await VaultService.saveVault(updated)`
step: the in-memory items are updated first, unconditionally; the save
outcome `saveOk` only decides whether the persisted record follows.  A
rejected save is neither caught nor rolled back in the source, so the app
component does not depend on `saveOk`. -/
def handleAddSys (saveOk : Bool) (freshId title user pass : String) (sys : SysState) : SysState :=
  let updated := sys.app.items ++ [{ id := freshId, title := title, username := user, password := pass }]
  { app := { sys.app with items := updated },
    persisted := if saveOk then updated else sys.persisted }

/-- `handleDelete` of `src/App.tsx` with its `saveVault` step, analogous to
`handleAddSys`. -/
def handleDeleteSys (saveOk : Bool) (i : String) (sys : SysState) : SysState :=
  let updated := sys.app.items.filter (fun x => x.id ≠ i)
  { app := { sys.app with items := updated },
    persisted := if saveOk then updated else sys.persisted }

/-- One user-visible transition of the `App` component.  Each constructor is
one handler of `src/App.tsx`; its guard is the render condition under which
the screen exposing that handler is shown (lines 157-167 of the source):
`SetupScreen` only in `SETUP`, `LoginScreen` only in `LOCKED`,
`ResetPasswordScreen` only in `RECOVERY_SUCCESS`, `VaultScreen` only in
`UNLOCKED`; the startup effect fires in `LOADING`; the visibility listener
and `handleLock` itself are unguarded. -/
inductive Step : AppModel → AppModel → Prop where
  | lock {s : AppModel} : Step s (handleLock s)
  | visibility {s : AppModel} (hidden : Bool) : Step s (handleVisibilityChange hidden s)
  | startup {s : AppModel} (hasVault : Bool) (h : s.appState = AppState.LOADING) :
      Step s (checkState hasVault s)
  | setup {s : AppModel} (result : Except AuthCause String)
      (h : s.appState = AppState.SETUP) : Step s (handleSetup result s)
  | unlock {s : AppModel} (result : Except AuthCause (List VaultItem))
      (h : s.appState = AppState.LOCKED) : Step s (handleUnlock result s)
  | recover {s : AppModel} (result : Except AuthCause (List VaultItem))
      (h : s.appState = AppState.LOCKED) : Step s (handleRecover result s)
  | reset {s : AppModel} (result : Except AuthCause Unit)
      (h : s.appState = AppState.RECOVERY_SUCCESS) : Step s (handlePasswordReset result s)
  | add {s : AppModel} (freshId title user pass : String)
      (h : s.appState = AppState.UNLOCKED) : Step s (handleAddApp freshId title user pass s)
  | delete {s : AppModel} (i : String)
      (h : s.appState = AppState.UNLOCKED) : Step s (handleDeleteApp i s)

/-- States the running application can actually be in: reachable from the
initial component state by handler steps. -/
def Reachable (s : AppModel) : Prop :=
  Relation.ReflTransGen Step appInit s

/-!
## Vault engine, modelled from the specification

`src/App.tsx` imports `VaultService` from `./services/VaultService`, a file
absent from the repository's sources.  The definitions in this section are
therefore modelled from the specification (sections 3, 4.1-4.4): a symbolic
KDF, a symbolic AEAD whose `sealAEAD`/`openSealed` satisfy exactly the
round-trip and fail-closed contract of section 4.2, the dual-escrow vault
record of section 3, and the engine operations of section 4.4.
-/

/-- Modelled from the spec (section 4.1, `VaultService` missing from src):
deterministic key derivation from a secret and a salt — same inputs always
yield the same key.  Cost parameters do not matter for the functional
contracts proved here. -/
def derive (secret : String) (salt : List Nat) : List Nat :=
  secret.toList.map Char.toNat ++ 256 :: salt

/-- Modelled from the spec (section 4.2): a symbolic AEAD ciphertext
recording the key and nonce it was sealed under together with the payload.
The payload is never observable except through `openSealed` with the exact
key and nonce. -/
structure Sealed (α : Type) where
  usedKey : List Nat
  usedNonce : List Nat
  payload : α
deriving DecidableEq

/-- Modelled from the spec (section 4.2): `sealAEAD(key, nonce, plaintext)`. -/
def sealAEAD {α : Type} (key nonce : List Nat) (pt : α) : Sealed α :=
  { usedKey := key, usedNonce := nonce, payload := pt }

/-- Modelled from the spec (section 4.2): `open(key, nonce, ct)` returns the
plaintext exactly when key and nonce match the ones sealed under, and fails
closed (`none`, the `AuthFailure` outcome) otherwise. -/
def openSealed {α : Type} (key nonce : List Nat) (ct : Sealed α) : Option α :=
  if ct.usedKey = key ∧ ct.usedNonce = nonce then some ct.payload else none

/-- Modelled from the spec (section 3): one escrow entry —
`{ nonce: bytes, ciphertext: bytes }` wrapping the VEK. -/
structure WrappedVek where
  nonce : List Nat
  ciphertext : Sealed (List Nat)
deriving DecidableEq

/-- Modelled from the spec (section 3): the durable `VaultRecord`. -/
structure VaultRecord where
  version : Nat
  kdf_salt : List Nat
  wrapped_vek_by_password : WrappedVek
  recovery_kdf_salt : List Nat
  wrapped_vek_by_recovery : WrappedVek
  items_nonce : List Nat
  items_ciphertext : Sealed (List VaultItem)
deriving DecidableEq

/-- Modelled from the spec (sections 4.4, 5): the engine's state — the
stored record plus the in-memory VEK and item collection held only while
unlocked. -/
structure Engine where
  stored : Option VaultRecord
  memVek : Option (List Nat)
  memItems : List VaultItem
deriving DecidableEq

/-- An engine with no record and nothing in memory. -/
def engineInit : Engine := { stored := none, memVek := none, memItems := [] }

/-- The fresh randomness one `initializeVault` draws from the CSPRNG:
the VEK, both salts, both wrapping nonces, the items nonce and the
recovery secret. -/
structure Entropy where
  vek : List Nat
  pwSalt : List Nat
  recSalt : List Nat
  pwNonce : List Nat
  recNonce : List Nat
  itemsNonce : List Nat
  recoverySecret : String

/-- Modelled from the spec (sections 4.3, 4.4): the record `initializeVault`
writes — the same fresh VEK wrapped under the password-derived key and under
the recovery-derived key, and an empty item collection sealed under the VEK. -/
def initRecord (ent : Entropy) (password : String) : VaultRecord :=
  { version := 1
    kdf_salt := ent.pwSalt
    wrapped_vek_by_password :=
      { nonce := ent.pwNonce, ciphertext := sealAEAD (derive password ent.pwSalt) ent.pwNonce ent.vek }
    recovery_kdf_salt := ent.recSalt
    wrapped_vek_by_recovery :=
      { nonce := ent.recNonce
        ciphertext := sealAEAD (derive ent.recoverySecret ent.recSalt) ent.recNonce ent.vek }
    items_nonce := ent.itemsNonce
    items_ciphertext := sealAEAD ent.vek ent.itemsNonce [] }

/-- Modelled from the spec (section 4.4): `initializeVault(password)` —
refuses if a record exists, otherwise writes `initRecord`, loads the VEK and
the empty collection into memory and returns the recovery secret. -/
def initVault (ent : Entropy) (password : String) (e : Engine) :
    Option (Engine × String) :=
  match e.stored with
  | some _ => none
  | none =>
      some ({ stored := some (initRecord ent password),
              memVek := some ent.vek, memItems := [] }, ent.recoverySecret)

/-- Modelled from the spec (sections 3, 4.4): the record rewrite `save`
performs — only `items_nonce` and `items_ciphertext` change. -/
def saveRecord (vek nonce : List Nat) (items : List VaultItem) (r : VaultRecord) : VaultRecord :=
  { r with items_nonce := nonce, items_ciphertext := sealAEAD vek nonce items }

/-- Modelled from the spec (section 4.4): `saveVault(items)` — requires an
in-memory VEK (`NotUnlocked` otherwise), re-encrypts the whole collection
under it with a fresh nonce and persists. -/
def saveVaultE (nonce : List Nat) (items : List VaultItem) (e : Engine) : Option Engine :=
  match e.memVek, e.stored with
  | some vek, some r =>
      some { e with memItems := items, stored := some (saveRecord vek nonce items r) }
  | _, _ => none

/-- Modelled from the spec (section 4.4): `lock()` — discards the in-memory
VEK and items; the stored record is untouched. -/
def lockVault (e : Engine) : Engine :=
  { e with memVek := none, memItems := [] }

/-- Modelled from the spec (section 4.4): `unlockVault(password)` — derive
the password key from the stored salt, unwrap the password-escrowed VEK,
decrypt the item collection; every failure is the one `AuthFailure`
outcome (`none`). -/
def unlockVault (password : String) (e : Engine) : Option Engine :=
  match e.stored with
  | none => none
  | some r =>
      match openSealed (derive password r.kdf_salt)
          r.wrapped_vek_by_password.nonce r.wrapped_vek_by_password.ciphertext with
      | none => none
      | some vek =>
          match openSealed vek r.items_nonce r.items_ciphertext with
          | none => none
          | some items => some { e with memVek := some vek, memItems := items }

/-- Modelled from the spec (section 4.4): `recoverVault(recoverySecret)` —
the recovery-path analogue of `unlockVault`. -/
def recoverVault (secret : String) (e : Engine) : Option Engine :=
  match e.stored with
  | none => none
  | some r =>
      match openSealed (derive secret r.recovery_kdf_salt)
          r.wrapped_vek_by_recovery.nonce r.wrapped_vek_by_recovery.ciphertext with
      | none => none
      | some vek =>
          match openSealed vek r.items_nonce r.items_ciphertext with
          | none => none
          | some items => some { e with memVek := some vek, memItems := items }

/-- Modelled from the spec (section 4.3, rotation): the record rewrite
`resetMasterPassword` performs — a new salt and a rewrap of the existing VEK
under the new password; the recovery escrow fields are left untouched. -/
def resetRecord (vek : List Nat) (newPassword : String) (newSalt newNonce : List Nat)
    (r : VaultRecord) : VaultRecord :=
  { r with kdf_salt := newSalt
           wrapped_vek_by_password :=
             { nonce := newNonce, ciphertext := sealAEAD (derive newPassword newSalt) newNonce vek } }

/-- Unwrapping the VEK through the password escrow path of a record. -/
def unwrapPw (password : String) (r : VaultRecord) : Option (List Nat) :=
  openSealed (derive password r.kdf_salt)
    r.wrapped_vek_by_password.nonce r.wrapped_vek_by_password.ciphertext

/-- Unwrapping the VEK through the recovery escrow path of a record. -/
def unwrapRec (secret : String) (r : VaultRecord) : Option (List Nat) :=
  openSealed (derive secret r.recovery_kdf_salt)
    r.wrapped_vek_by_recovery.nonce r.wrapped_vek_by_recovery.ciphertext

/-- The engine sequence of the round-trip property: `initialize(P)`, then
`save(C)` (fresh nonce `n2`), then `lock()`, then `unlock(P)`, returning
the collection the final unlock decrypts. -/
def roundTrip (ent : Entropy) (password : String) (c : List VaultItem) (n2 : List Nat) :
    Option (List VaultItem) :=
  match initVault ent password engineInit with
  | none => none
  | some (e1, _) =>
      match saveVaultE n2 c e1 with
      | none => none
      | some e2 =>
          match unlockVault password (lockVault e2) with
          | none => none
          | some e3 => some e3.memItems

/-!
## Password generator, modelled from the specification

Section 4.6: `generate(length, required classes)` guarantees at least one
character from each required class (uppercase, lowercase, digit, symbol)
while drawing the remaining positions uniformly from the full alphabet.
The CSPRNG is modelled as an arbitrary stream `rand : Nat → Nat`.
-/

/-- The uppercase class. -/
def UPPERS : List Char := "ABCDEFGHIJKLMNOPQRSTUVWXYZ".toList

/-- The lowercase class. -/
def LOWERS : List Char := "abcdefghijklmnopqrstuvwxyz".toList

/-- The digit class. -/
def DIGITS : List Char := "0123456789".toList

/-- The symbol class. -/
def SYMBOLS : List Char := "!@#$%^&*()-_=+?~".toList

/-- The full alphabet the non-mandatory positions draw from. -/
def ALLCHARS : List Char := UPPERS ++ LOWERS ++ DIGITS ++ SYMBOLS

/-- Picking a character of a class with one random draw. -/
def pickFrom (cls : List Char) (r : Nat) : Char :=
  cls.getD (r % cls.length) 'A'

/-- Modelled from the spec (section 4.6, `VaultService` missing from src):
`generateSecurePassword(len)` with random stream `rand` — one guaranteed
character from each required class, all remaining positions drawn from the
full alphabet.  Lengths below 4 are an invalid configuration (fatal). -/
def generateSecurePassword (len : Nat) (rand : Nat → Nat) : String :=
  if len < 4 then "" else
    String.mk ([pickFrom UPPERS (rand 0), pickFrom LOWERS (rand 1),
                pickFrom DIGITS (rand 2), pickFrom SYMBOLS (rand 3)] ++
               (List.range (len - 4)).map (fun i => pickFrom ALLCHARS (rand (i + 4))))

/-!
## Helper lemmas
-/

/-- The AEAD round-trip law of section 4.2: opening under the exact key and
nonce a ciphertext was sealed under returns the plaintext. -/
theorem openSealed_sealAEAD {α : Type} (key nonce : List Nat) (pt : α) :
    openSealed key nonce (sealAEAD key nonce pt) = some pt := by
  simp [openSealed, sealAEAD]

/-- A class pick lands in its class. -/
theorem pickFrom_mem (cls : List Char) (r : Nat) (h : cls ≠ []) :
    pickFrom cls r ∈ cls := by
  have hlen : 0 < cls.length := List.length_pos.mpr h
  have hlt : r % cls.length < cls.length := Nat.mod_lt _ hlen
  unfold pickFrom
  rw [List.getD_eq_getElem cls 'A' hlt]
  exact List.getElem_mem hlt

/-- Every character of `UPPERS` is uppercase. -/
theorem uppers_isUpper : ∀ ch ∈ UPPERS, ch.isUpper = true := by decide

/-- Every character of `LOWERS` is lowercase. -/
theorem lowers_isLower : ∀ ch ∈ LOWERS, ch.isLower = true := by decide

/-- Every character of `DIGITS` is a digit. -/
theorem digits_isDigit : ∀ ch ∈ DIGITS, ch.isDigit = true := by decide

/-- Every character of `SYMBOLS` is a non-alphanumeric symbol. -/
theorem symbols_not_alphanum : ∀ ch ∈ SYMBOLS, ch.isAlphanum = false := by decide

/-- In every reachable state in which no decrypted collection is held
(`LOADING`, `SETUP`, `LOCKED`), the in-memory item collection is empty. -/
theorem locked_items_empty {s : AppModel} (h : Reachable s) :
    (s.appState = AppState.LOADING ∨ s.appState = AppState.SETUP ∨
      s.appState = AppState.LOCKED) → s.items = [] := by
  induction h with
  | refl => intro _; rfl
  | tail hab hbc ih =>
      cases hbc with
      | lock => intro _; rfl
      | visibility hidden =>
          unfold handleVisibilityChange
          split
          · intro _; rfl
          · exact ih
      | startup hasVault h =>
          intro _
          simpa [checkState] using ih (Or.inl h)
      | setup result h =>
          cases result with
          | ok rKey => intro _; simp [handleSetup]
          | error _ =>
              intro _
              simpa [handleSetup] using ih (Or.inr (Or.inl h))
      | unlock result h =>
          cases result with
          | ok its => intro hst; simp [handleUnlock] at hst
          | error _ =>
              intro _
              simpa [handleUnlock] using ih (Or.inr (Or.inr h))
      | recover result h =>
          cases result with
          | ok its => intro hst; simp [handleRecover] at hst
          | error _ =>
              intro _
              simpa [handleRecover] using ih (Or.inr (Or.inr h))
      | reset result h =>
          cases result with
          | ok _ => intro hst; simp [handlePasswordReset] at hst
          | error _ => intro hst; simp [handlePasswordReset, h] at hst
      | add freshId title user pass h =>
          intro hst; simp [handleAddApp, h] at hst
      | delete i h =>
          intro hst; simp [handleDeleteApp, h] at hst

/-!
## Claims
-/

/-- C1: for every password P and item collection C, `initialize(P)` then
`save(C)` then `lock()` then `unlock(P)` succeeds and yields a collection
equal to C (in particular equal order-insensitively by item id). -/
theorem c1_round_trip (ent : Entropy) (password : String) (c : List VaultItem)
    (n2 : List Nat) :
    ∃ items, roundTrip ent password c n2 = some items ∧ items.Perm c := by
  refine ⟨c, ?_, List.Perm.refl c⟩
  simp [roundTrip, initVault, engineInit, saveVaultE, lockVault, unlockVault,
        initRecord, saveRecord, openSealed_sealAEAD]

/-- C2: the record produced by `initialize` unwraps to the same bit-identical
VEK through the password path and through the recovery path, and both the
`save` rewrite and the `resetMasterPassword` rewrite preserve this
dual-escrow invariant (`save` leaves both escrow entries untouched; reset
rewraps the same VEK under the new password and leaves the recovery entry
untouched). -/
theorem c2_dual_escrow (ent : Entropy) (password newPassword secret2 : String)
    (v : List Nat) (n2 ns nn : List Nat) (c : List VaultItem) (r : VaultRecord) :
    unwrapPw password (initRecord ent password) = some ent.vek ∧
    unwrapRec ent.recoverySecret (initRecord ent password) = some ent.vek ∧
    unwrapPw password (saveRecord v n2 c r) = unwrapPw password r ∧
    unwrapRec secret2 (saveRecord v n2 c r) = unwrapRec secret2 r ∧
    unwrapPw newPassword (resetRecord v newPassword ns nn r) = some v ∧
    unwrapRec secret2 (resetRecord v newPassword ns nn r) = unwrapRec secret2 r := by
  refine ⟨?_, ?_, rfl, rfl, ?_, rfl⟩ <;>
    simp [unwrapPw, unwrapRec, initRecord, resetRecord, saveRecord,
          openSealed_sealAEAD]

/-- C3: in every reachable `LOCKED` state the in-memory collection is (still)
empty, and a failing unlock or recover — whatever the failure cause — leaves
the state machine in `LOCKED` with the collection still empty: no partial
effects. -/
theorem c3_failed_attempt_no_partial_effects (s : AppModel) (c : AuthCause)
    (hr : Reachable s) (hl : s.appState = AppState.LOCKED) :
    s.items = [] ∧
    (handleUnlock (Except.error c) s).appState = AppState.LOCKED ∧
    (handleUnlock (Except.error c) s).items = [] ∧
    (handleRecover (Except.error c) s).appState = AppState.LOCKED ∧
    (handleRecover (Except.error c) s).items = [] := by
  have he : s.items = [] := locked_items_empty hr (Or.inr (Or.inr hl))
  exact ⟨he, by simp [handleUnlock, hl], by simp [handleUnlock, he],
         by simp [handleRecover, hl], by simp [handleRecover, he]⟩

/-- Witness for C3 at the concrete reachable locked state obtained by the
startup transition on an existing vault. -/
theorem c3_failed_attempt_witness :
    (checkState true appInit).items = [] ∧
    (handleUnlock (Except.error AuthCause.wrongPassword) (checkState true appInit)).appState
        = AppState.LOCKED ∧
    (handleUnlock (Except.error AuthCause.wrongPassword) (checkState true appInit)).items = [] ∧
    (handleRecover (Except.error AuthCause.wrongPassword) (checkState true appInit)).appState
        = AppState.LOCKED ∧
    (handleRecover (Except.error AuthCause.wrongPassword) (checkState true appInit)).items = [] :=
  c3_failed_attempt_no_partial_effects (checkState true appInit) AuthCause.wrongPassword
    (Relation.ReflTransGen.single (Step.startup true rfl)) (by decide)

/-- C4, counterexample to the claim as stated: losing visibility while in
`RECOVERY_SUCCESS` (the `RECOVERED` state) with a decrypted item held in
memory does not invoke `lock()` — the state stays `RECOVERY_SUCCESS` and the
item stays in memory, because the visibility handler tests
`appState === UNLOCKED` only. -/
theorem c4_visibility_counterexample :
    (handleVisibilityChange true
        { appState := AppState.RECOVERY_SUCCESS,
          items := [{ id := "1", title := "t", username := "u", password := "p" }],
          recoveryKey := none, error := none }).appState ≠ AppState.LOCKED ∧
    (handleVisibilityChange true
        { appState := AppState.RECOVERY_SUCCESS,
          items := [{ id := "1", title := "t", username := "u", password := "p" }],
          recoveryKey := none, error := none }).items ≠ [] := by
  decide

/-- C4, amended: whenever the application loses visibility while the state
is `UNLOCKED`, `lock()` is invoked — the collection is eagerly cleared and
the state becomes `LOCKED`; in any other state (including
`RECOVERY_SUCCESS`), and on a visibility event that is not a loss of
visibility, nothing happens. -/
theorem c4_visibility_lock (s : AppModel) (hidden : Bool) :
    (hidden = true → s.appState = AppState.UNLOCKED →
      handleVisibilityChange hidden s = handleLock s ∧
      (handleVisibilityChange hidden s).appState = AppState.LOCKED ∧
      (handleVisibilityChange hidden s).items = []) ∧
    (s.appState ≠ AppState.UNLOCKED → handleVisibilityChange hidden s = s) ∧
    (hidden = false → handleVisibilityChange hidden s = s) := by
  refine ⟨?_, ?_, ?_⟩
  · intro h1 h2
    simp [handleVisibilityChange, h1, h2, handleLock]
  · intro h
    unfold handleVisibilityChange
    rw [if_neg]
    intro hc
    exact h hc.2
  · intro h
    subst h
    unfold handleVisibilityChange
    rw [if_neg]
    intro hc
    cases hc.1

/-- Witness for the amended C4 at a concrete unlocked state losing
visibility. -/
theorem c4_visibility_lock_witness :
    handleVisibilityChange true
        { appState := AppState.UNLOCKED,
          items := [{ id := "1", title := "t", username := "u", password := "p" }],
          recoveryKey := none, error := none }
      = handleLock
        { appState := AppState.UNLOCKED,
          items := [{ id := "1", title := "t", username := "u", password := "p" }],
          recoveryKey := none, error := none } ∧
    (handleVisibilityChange true
        { appState := AppState.UNLOCKED,
          items := [{ id := "1", title := "t", username := "u", password := "p" }],
          recoveryKey := none, error := none }).appState = AppState.LOCKED ∧
    (handleVisibilityChange true
        { appState := AppState.UNLOCKED,
          items := [{ id := "1", title := "t", username := "u", password := "p" }],
          recoveryKey := none, error := none }).items = [] :=
  (c4_visibility_lock
      { appState := AppState.UNLOCKED,
        items := [{ id := "1", title := "t", username := "u", password := "p" }],
        recoveryKey := none, error := none } true).1 rfl rfl

/-- C5: every cause of unlock failure produces one and the same observable
outcome — identical resulting states, with the single fixed `AuthFailure`
indication and no change to the items or the state machine: two runs failing
for different causes are indistinguishable. -/
theorem c5_auth_failure_indistinguishable (s : AppModel) (c1 c2 : AuthCause) :
    handleUnlock (Except.error c1) s = handleUnlock (Except.error c2) s ∧
    (handleUnlock (Except.error c1) s).error = some "Invalid master password." ∧
    (handleUnlock (Except.error c1) s).appState = s.appState ∧
    (handleUnlock (Except.error c1) s).items = s.items := by
  simp [handleUnlock]

/-- C6: a successful `recover` from `LOCKED` enters `RECOVERY_SUCCESS`
(the `RECOVERED` state, which is exactly the state rendering the mandatory
password-reset screen) with the decrypted items in memory; from there a
successful `resetMasterPassword` enters `UNLOCKED`, while a failed reset
leaves the state `RECOVERY_SUCCESS`. -/
theorem c6_recover_then_reset (s : AppModel) (items : List VaultItem) (c : AuthCause)
    (h : s.appState = AppState.LOCKED) :
    (handleRecover (Except.ok items) s).appState = AppState.RECOVERY_SUCCESS ∧
    (handleRecover (Except.ok items) s).items = items ∧
    (handlePasswordReset (Except.ok ()) (handleRecover (Except.ok items) s)).appState
        = AppState.UNLOCKED ∧
    (handlePasswordReset (Except.error c) (handleRecover (Except.ok items) s)).appState
        = AppState.RECOVERY_SUCCESS ∧
    (handlePasswordReset (Except.error c) (handleRecover (Except.ok items) s)).items
        = items := by
  simp [handleRecover, handlePasswordReset]

/-- Witness for C6 at a concrete locked state and a one-item collection. -/
theorem c6_recover_then_reset_witness :
    (handleRecover (Except.ok [{ id := "1", title := "t", username := "u", password := "p" }])
        (checkState true appInit)).appState = AppState.RECOVERY_SUCCESS ∧
    (handleRecover (Except.ok [{ id := "1", title := "t", username := "u", password := "p" }])
        (checkState true appInit)).items
        = [{ id := "1", title := "t", username := "u", password := "p" }] ∧
    (handlePasswordReset (Except.ok ())
        (handleRecover (Except.ok [{ id := "1", title := "t", username := "u", password := "p" }])
          (checkState true appInit))).appState = AppState.UNLOCKED ∧
    (handlePasswordReset (Except.error AuthCause.badSalt)
        (handleRecover (Except.ok [{ id := "1", title := "t", username := "u", password := "p" }])
          (checkState true appInit))).appState = AppState.RECOVERY_SUCCESS ∧
    (handlePasswordReset (Except.error AuthCause.badSalt)
        (handleRecover (Except.ok [{ id := "1", title := "t", username := "u", password := "p" }])
          (checkState true appInit))).items
        = [{ id := "1", title := "t", username := "u", password := "p" }] :=
  c6_recover_then_reset (checkState true appInit)
    [{ id := "1", title := "t", username := "u", password := "p" }]
    AuthCause.badSalt (by decide)

/-- C7: `lock()` is idempotent — from any state, after one call and after
two consecutive calls the state is `LOCKED` with an empty in-memory
collection, and the second call changes nothing. -/
theorem c7_lock_idempotent (s : AppModel) :
    (handleLock s).appState = AppState.LOCKED ∧
    (handleLock s).items = [] ∧
    (handleLock (handleLock s)).appState = AppState.LOCKED ∧
    (handleLock (handleLock s)).items = [] ∧
    handleLock (handleLock s) = handleLock s := by
  simp [handleLock]

/-- C8: the startup effect consults `hasExistingVault` exactly once
(one oracle query is consumed), and the sole effect of the choice is the
state: `true` sends the initial state to `LOCKED` (unlock path), `false` to
`SETUP` (initialize path) — all other fields are exactly those of the
initial state, so no other operation runs before this choice. -/
theorem c8_startup_choice (oracle : Nat → Bool) :
    (runStartup oracle 0 appInit).2 = 0 + 1 ∧
    (oracle 0 = true →
      (runStartup oracle 0 appInit).1 = { appInit with appState := AppState.LOCKED }) ∧
    (oracle 0 = false →
      (runStartup oracle 0 appInit).1 = { appInit with appState := AppState.SETUP }) := by
  refine ⟨rfl, ?_, ?_⟩ <;> intro h <;> simp [runStartup, checkState, h]

/-- Witness for C8 with the oracle answering that a vault exists. -/
theorem c8_startup_choice_witness :
    (runStartup (fun _ => true) 0 appInit).1 = { appInit with appState := AppState.LOCKED } :=
  (c8_startup_choice (fun _ => true)).2.1 rfl

/-- C9: for every state of the CSPRNG, `generateSecurePassword 16` returns a
string of length exactly 16 containing at least one uppercase letter, one
lowercase letter, one digit and one (non-alphanumeric) symbol. -/
theorem c9_generator_guarantees (rand : Nat → Nat) :
    (generateSecurePassword 16 rand).length = 16 ∧
    (∃ ch ∈ (generateSecurePassword 16 rand).data, ch.isUpper = true) ∧
    (∃ ch ∈ (generateSecurePassword 16 rand).data, ch.isLower = true) ∧
    (∃ ch ∈ (generateSecurePassword 16 rand).data, ch.isDigit = true) ∧
    (∃ ch ∈ (generateSecurePassword 16 rand).data, ch.isAlphanum = false) := by
  have hguard : ¬ (16 < 4) := by decide
  unfold generateSecurePassword
  rw [if_neg hguard]
  refine ⟨?_, ?_, ?_, ?_, ?_⟩
  · show (List.length _) = 16
    simp
  · exact ⟨pickFrom UPPERS (rand 0), by simp,
      uppers_isUpper _ (pickFrom_mem UPPERS (rand 0) (by decide))⟩
  · exact ⟨pickFrom LOWERS (rand 1), by simp,
      lowers_isLower _ (pickFrom_mem LOWERS (rand 1) (by decide))⟩
  · exact ⟨pickFrom DIGITS (rand 2), by simp,
      digits_isDigit _ (pickFrom_mem DIGITS (rand 2) (by decide))⟩
  · exact ⟨pickFrom SYMBOLS (rand 3), by simp,
      symbols_not_alphanum _ (pickFrom_mem SYMBOLS (rand 3) (by decide))⟩

/-- C10: while unlocked, `handleAdd` updates the displayed collection before
the save completes and independently of its outcome — it appends exactly one
item carrying the freshly generated id and leaves every existing item
unchanged; a rejected save is not rolled back and surfaces no error, so the
in-memory collection silently diverges from the persisted record; and
`handleDelete` removes exactly the items whose id equals the given id,
preserving all others and their order. -/
theorem c10_add_delete_save (sys : SysState) (saveOk : Bool)
    (freshId t u p delId : String) :
    (handleAddSys saveOk freshId t u p sys).app.items
        = sys.app.items ++ [{ id := freshId, title := t, username := u, password := p }] ∧
    (handleAddSys saveOk freshId t u p sys).app.appState = sys.app.appState ∧
    (handleAddSys saveOk freshId t u p sys).app.error = sys.app.error ∧
    (handleAddSys true freshId t u p sys).app = (handleAddSys false freshId t u p sys).app ∧
    (saveOk = false → (handleAddSys saveOk freshId t u p sys).persisted = sys.persisted) ∧
    (saveOk = false → sys.app.items = sys.persisted →
      (handleAddSys saveOk freshId t u p sys).app.items
        ≠ (handleAddSys saveOk freshId t u p sys).persisted) ∧
    (freshId ∉ sys.app.items.map VaultItem.id →
      ((handleAddSys saveOk freshId t u p sys).app.items.filter
          (fun x => x.id = freshId)).length = 1) ∧
    (∀ x ∈ (handleDeleteSys saveOk delId sys).app.items, x.id ≠ delId) ∧
    List.Sublist (handleDeleteSys saveOk delId sys).app.items sys.app.items ∧
    (∀ x ∈ sys.app.items, x.id ≠ delId → x ∈ (handleDeleteSys saveOk delId sys).app.items) ∧
    (handleDeleteSys saveOk delId sys).app.error = sys.app.error ∧
    (saveOk = false → (handleDeleteSys saveOk delId sys).persisted = sys.persisted) := by
  refine ⟨rfl, rfl, rfl, rfl, ?_, ?_, ?_, ?_, ?_, ?_, rfl, ?_⟩
  · intro h
    subst h
    simp [handleAddSys]
  · intro h he
    subst h
    simp only [handleAddSys, Bool.false_eq_true, if_false]
    rw [← he]
    intro heq
    have hlen := congrArg List.length heq
    simp at hlen
  · intro hfresh
    have hnil : sys.app.items.filter (fun x => decide (x.id = freshId)) = [] := by
      rw [List.filter_eq_nil_iff]
      intro a ha
      simp only [decide_eq_true_eq]
      intro hEq
      exact hfresh (hEq ▸ List.mem_map_of_mem VaultItem.id ha)
    simp [handleAddSys, List.filter_append, hnil]
  · intro x hx
    have := (List.mem_filter.mp hx).2
    simpa using this
  · exact List.filter_sublist sys.app.items
  · intro x hx hne
    exact List.mem_filter.mpr ⟨hx, by simpa using hne⟩
  · intro h
    subst h
    simp [handleDeleteSys]

/-- Witness for C10: a failed save after an add at a concrete in-sync state
leaves the persisted record behind the diverged in-memory collection, the
freshly added id occurs exactly once, and delete keeps the items whose id
differs. -/
theorem c10_add_delete_save_witness :
    (handleAddSys false "2" "T" "U" "P"
        { app := { appState := AppState.UNLOCKED,
                   items := [{ id := "1", title := "T", username := "U", password := "P" }],
                   recoveryKey := none, error := none },
          persisted := [{ id := "1", title := "T", username := "U", password := "P" }] }).persisted
      = [{ id := "1", title := "T", username := "U", password := "P" }] ∧
    (handleAddSys false "2" "T" "U" "P"
        { app := { appState := AppState.UNLOCKED,
                   items := [{ id := "1", title := "T", username := "U", password := "P" }],
                   recoveryKey := none, error := none },
          persisted := [{ id := "1", title := "T", username := "U", password := "P" }] }).app.items
      ≠ (handleAddSys false "2" "T" "U" "P"
        { app := { appState := AppState.UNLOCKED,
                   items := [{ id := "1", title := "T", username := "U", password := "P" }],
                   recoveryKey := none, error := none },
          persisted := [{ id := "1", title := "T", username := "U", password := "P" }] }).persisted ∧
    ((handleAddSys false "2" "T" "U" "P"
        { app := { appState := AppState.UNLOCKED,
                   items := [{ id := "1", title := "T", username := "U", password := "P" }],
                   recoveryKey := none, error := none },
          persisted := [{ id := "1", title := "T", username := "U", password := "P" }] }).app.items.filter
        (fun x => x.id = "2")).length = 1 := by
  have h := c10_add_delete_save
    { app := { appState := AppState.UNLOCKED,
               items := [{ id := "1", title := "T", username := "U", password := "P" }],
               recoveryKey := none, error := none },
      persisted := [{ id := "1", title := "T", username := "U", password := "P" }] }
    false "2" "T" "U" "P" "1"
  exact ⟨h.2.2.2.2.1 rfl, h.2.2.2.2.2.1 rfl rfl, h.2.2.2.2.2.2.1 (by decide)⟩

end Cyberdtse
